import Mathlib

/-!
A verification development for the GaaS (Graph-as-a-Service) server handler
(`gaas_server/gaas_handler.py`) and its Thrift wire contract
(`gaas_client/gaas_thrift.py`).

The handler is embedded shallowly: the mutable `GaasHandler` instance becomes a
`HandlerState` record threaded explicitly through each operation; Python
exceptions become `Except Exc` results, where `Exc` distinguishes the uniform
domain error (`GaasError`, defined in the Thrift contract) from any other
(native) Python exception; calls into the external graph-analytics engine
(cugraph / cudf / dask), whose outcomes the handler cannot control, are passed
in as explicit `EngineOutcome` parameters.  Side effects that the claims talk
about (eval of client-supplied argument reprs, invocation of extension
functions, teardown of the dask cluster) are recorded in an explicit `Effect`
trace returned next to the result.
-/

/-- Outcome of a raised Python exception as seen at the RPC boundary:
either the uniform domain error (`GaasError` carrying a message string, the
only exception type declared in the Thrift contract) or a native Python
exception of any other type, carrying its textual detail. -/
inductive Exc where
  | gaas (message : String)
  | native (message : String)
deriving DecidableEq, Repr

/-- The dynamic type of a graph object held by the registry: a single-GPU
`cugraph.experimental.PropertyGraph`, a multi-GPU
`cugraph.experimental.MGPropertyGraph` (a distinct class, not a subclass of
`PropertyGraph`, which is why the source tests membership with
`isinstance(G, (PropertyGraph, MGPropertyGraph))`), or a plain extracted
`cugraph.Graph`. -/
inductive GraphKind where
  | propertyGraph
  | mgPropertyGraph
  | plainGraph
deriving DecidableEq, Repr

/-- A graph object owned by the registry.  `token` is the identity of the
underlying Python object (fresh per constructed object), `numEdges` the value
of its `num_edges` attribute, `vertexProps` and `edgeProps` the column names of
its `_vertex_prop_dataframe` and `_edge_prop_dataframe`. -/
structure GraphObj where
  kind : GraphKind
  token : Nat
  numEdges : Nat
  vertexProps : List String
  edgeProps : List String
deriving DecidableEq, Repr

/-- A loaded graph-creation extension module: its module name (the stem of the
`*_extension.py` file it was loaded from, the key in
`__graph_creation_extensions`) and the set of function names it exposes
(`getattr(module, func_name, None) is not None`). -/
structure ExtensionModule where
  name : String
  funcs : List String
deriving DecidableEq, Repr

/-! ### Python dict as an insertion-ordered association list

Python dicts preserve insertion order; assigning an existing key replaces the
value in place, `pop` removes the entry, `get` returns the value or `None`.
The states built by the handler never hold a duplicated key because insertion
goes through `dictInsert`. -/

/-- `d.get(k)`: first value stored under `k`, or none. -/
def dictGet {β : Type} (d : List (Nat × β)) (k : Nat) : Option β :=
  match d with
  | [] => none
  | (k', v) :: rest => if k' = k then some v else dictGet rest k

/-- `d[k] = v`: replace in place if `k` is present, else append. -/
def dictInsert {β : Type} (d : List (Nat × β)) (k : Nat) (v : β) :
    List (Nat × β) :=
  match d with
  | [] => [(k, v)]
  | (k', v') :: rest =>
      if k' = k then (k, v) :: rest else (k', v') :: dictInsert rest k v

/-- `d.pop(k, None)` (the removal part): drop the entry stored under `k`. -/
def dictRemove {β : Type} (d : List (Nat × β)) (k : Nat) : List (Nat × β) :=
  match d with
  | [] => []
  | (k', v) :: rest =>
      if k' = k then rest else (k', v) :: dictRemove rest k

/-- `list(d.keys())`. -/
def dictKeys {β : Type} (d : List (Nat × β)) : List Nat :=
  d.map Prod.fst

/-- Modelled from the spec: the client package constant `defaults.graph_id`
(module `gaas_client.defaults`, not under src), the reserved id of the
lazily-created default graph.  The spec reserves `id == 0` for it. -/
def defaults_graph_id : Nat := 0

/-- The mutable state of a `GaasHandler` instance.  `next_token` is the supply
of fresh identities for newly constructed graph objects (Python object
identity). -/
structure HandlerState where
  next_graph_id : Nat
  graph_objs : List (Nat × GraphObj)
  graph_creation_extensions : List ExtensionModule
  dask_client : Option Nat
  dask_cluster : Option Nat
  next_token : Nat
deriving DecidableEq, Repr

/-- `GaasHandler.__init__`: ids start just above the reserved default id; no
graphs, no extensions, no dask client or cluster. -/
def initState : HandlerState :=
  { next_graph_id := defaults_graph_id + 1
    graph_objs := []
    graph_creation_extensions := []
    dask_client := none
    dask_cluster := none
    next_token := 0 }

/-- `GaasHandler.mg`: true when a dask client is attached. -/
def HandlerState.mg (s : HandlerState) : Bool :=
  s.dask_client.isSome

/-- `GaasHandler.__create_graph`: instantiate `MGPropertyGraph()` when `mg`
else `PropertyGraph()`; the new object is empty and carries a fresh
identity. -/
def create_graph_obj (s : HandlerState) : GraphObj × HandlerState :=
  (⟨if s.mg then GraphKind.mgPropertyGraph else GraphKind.propertyGraph,
    s.next_token, 0, [], []⟩,
   { s with next_token := s.next_token + 1 })

/-- `GaasHandler.__add_graph`: store `G` under the current `__next_graph_id`,
then increment the counter, returning the id used. -/
def add_graph (G : GraphObj) (s : HandlerState) : Nat × HandlerState :=
  (s.next_graph_id,
   { s with graph_objs := dictInsert s.graph_objs s.next_graph_id G
            next_graph_id := s.next_graph_id + 1 })

/-- `GaasHandler.create_graph`: make a fresh empty graph and register it. -/
def create_graph (s : HandlerState) : Nat × HandlerState :=
  let r := create_graph_obj s
  add_graph r.1 r.2

/-- `GaasHandler.delete_graph`: `pop` the mapping, raising
`GaasError(f"invalid graph_id {graph_id}")` when absent. -/
def delete_graph (graph_id : Nat) (s : HandlerState) :
    Except Exc HandlerState :=
  match dictGet s.graph_objs graph_id with
  | none => Except.error (Exc.gaas ("invalid graph_id " ++ toString graph_id))
  | some _ => Except.ok { s with graph_objs := dictRemove s.graph_objs graph_id }

/-- `GaasHandler.get_graph_ids`. -/
def get_graph_ids (s : HandlerState) : List Nat :=
  dictKeys s.graph_objs

/-- `GaasHandler._get_graph`: return the graph stored under `graph_id`; when
absent and `graph_id` is the reserved default id, lazily create and store the
default graph first; when absent otherwise, raise
`GaasError(f"invalid graph_id {graph_id}")`. -/
def _get_graph (graph_id : Nat) (s : HandlerState) :
    Except Exc (GraphObj × HandlerState) :=
  match dictGet s.graph_objs graph_id with
  | some pG => Except.ok (pG, s)
  | none =>
      if graph_id = defaults_graph_id then
        let r := create_graph_obj s
        Except.ok (r.1, { r.2 with graph_objs := dictInsert r.2.graph_objs graph_id r.1 })
      else
        Except.error (Exc.gaas ("invalid graph_id " ++ toString graph_id))

/-- `GaasHandler.get_num_edges`: look the graph up (with the lazy-default
behavior of `_get_graph`) and return its `num_edges`. -/
def get_num_edges (graph_id : Nat) (s : HandlerState) :
    Except Exc (Nat × HandlerState) :=
  match _get_graph graph_id s with
  | Except.error e => Except.error e
  | Except.ok (pG, s') => Except.ok (pG.numEdges, s')

/-! ### Extension loading and dispatch -/

/-- Outcome of `eval` of a client-supplied argument repr string.  `eval` is
called outside any try block, so a failure here is a native exception. -/
inductive EvalOutcome where
  | ok
  | raises (msg : String)
deriving DecidableEq, Repr

/-- Outcome of invoking a resolved extension function: a new graph object, or
a raised exception with its formatted traceback text. -/
inductive CallOutcome where
  | ok (g : GraphObj)
  | raises (msg : String)
deriving DecidableEq, Repr

/-- Observable side effects of handler operations, in the order they
happen. -/
inductive Effect where
  | evalArgs
  | evalKwargs
  | invokeExt (moduleName funcName : String)
  | commsDestroy
  | clientClose
  | clusterClose
deriving DecidableEq, Repr

/-- Python `s.startswith(p)`: the character sequence of `p` is an initial
segment of the character sequence of `s`. -/
def pyStartswith (s p : String) : Bool :=
  p.data.isPrefixOf s.data

/-- The module search of `call_graph_creation_extension`: iterate the loaded
modules in insertion (load) order and return the first one where
`getattr(module, func_name, None)` is not `None`. -/
def findModule (mods : List ExtensionModule) (fn : String) :
    Option ExtensionModule :=
  match mods with
  | [] => none
  | m :: rest => if fn ∈ m.funcs then some m else findModule rest fn

/-- `GaasHandler.call_graph_creation_extension`.  Mirrors the source control
flow exactly: if `func_name` does not start with a double underscore, search
the loaded modules in load order; on the first match, `eval` the two argument
reprs (outside any try block, so a failure escapes as a native exception),
then invoke the function inside a bare `try`/`except` that re-raises any
failure as `GaasError(f"error running {func_name} : {traceback}")`; on success
register the returned graph object and return its new id.  When the name is
private or no module matches, raise
`GaasError(f"{func_name} is not a graph creation extension")` having evaluated
nothing and changed nothing. -/
def call_graph_creation_extension (func_name : String)
    (evalArgsOutcome evalKwargsOutcome : EvalOutcome) (funcOutcome : CallOutcome)
    (s : HandlerState) : Except Exc Nat × HandlerState × List Effect :=
  if pyStartswith func_name "__" = false then
    match findModule s.graph_creation_extensions func_name with
    | some m =>
        match evalArgsOutcome with
        | EvalOutcome.raises msg =>
            (Except.error (Exc.native msg), s, [Effect.evalArgs])
        | EvalOutcome.ok =>
            match evalKwargsOutcome with
            | EvalOutcome.raises msg =>
                (Except.error (Exc.native msg), s,
                 [Effect.evalArgs, Effect.evalKwargs])
            | EvalOutcome.ok =>
                match funcOutcome with
                | CallOutcome.raises msg =>
                    (Except.error
                       (Exc.gaas ("error running " ++ func_name ++ " : " ++ msg)),
                     s,
                     [Effect.evalArgs, Effect.evalKwargs,
                      Effect.invokeExt m.name func_name])
                | CallOutcome.ok g =>
                    let r := add_graph g s
                    (Except.ok r.1, r.2,
                     [Effect.evalArgs, Effect.evalKwargs,
                      Effect.invokeExt m.name func_name])
    | none =>
        (Except.error
           (Exc.gaas (func_name ++ " is not a graph creation extension")), s, [])
  else
    (Except.error
       (Exc.gaas (func_name ++ " is not a graph creation extension")), s, [])

/-! ### Cluster coordinator teardown -/

/-- `GaasHandler.shutdown_dask_client`: when a dask client is attached, destroy
the inter-worker comms (`Comms.destroy()`), close the client, close the dask
cluster object when one is held (the field is only ever set by the handler
itself, so a held cluster is one the coordinator created), clear both fields;
when no client is attached, do nothing. -/
def shutdown_dask_client (s : HandlerState) : HandlerState × List Effect :=
  match s.dask_client with
  | none => (s, [])
  | some _ =>
      match s.dask_cluster with
      | some _ =>
          ({ s with dask_client := none, dask_cluster := none },
           [Effect.commsDestroy, Effect.clientClose, Effect.clusterClose])
      | none =>
          ({ s with dask_client := none },
           [Effect.commsDestroy, Effect.clientClose])

/-! ### Property membership checks -/

/-- `GaasHandler.is_vertex_property`: after `_get_graph`, the membership test
is guarded by `isinstance(G, PropertyGraph)` alone - the single-GPU class
only - so every other graph kind falls through to the raise. -/
def is_vertex_property (property_key : String) (graph_id : Nat)
    (s : HandlerState) : Except Exc (Bool × HandlerState) :=
  match _get_graph graph_id s with
  | Except.error e => Except.error e
  | Except.ok (G, s') =>
      if G.kind = GraphKind.propertyGraph then
        Except.ok (G.vertexProps.contains property_key, s')
      else
        Except.error (Exc.gaas "Graph does not contain properties")

/-- `GaasHandler.is_edge_property`: same shape as `is_vertex_property`, over
the edge property dataframe. -/
def is_edge_property (property_key : String) (graph_id : Nat)
    (s : HandlerState) : Except Exc (Bool × HandlerState) :=
  match _get_graph graph_id s with
  | Except.error e => Except.error e
  | Except.ok (G, s') =>
      if G.kind = GraphKind.propertyGraph then
        Except.ok (G.edgeProps.contains property_key, s')
      else
        Except.error (Exc.gaas "Graph does not contain properties")

/-! ### uniform_neighbor_sample -/

/-- Outcome of a call into the external engine: a value, or a raised native
exception. -/
inductive EngineOutcome (α : Type) where
  | ok (a : α)
  | raises (msg : String)
deriving DecidableEq, Repr

/-- `GaasHandler.uniform_neighbor_sample`.  The source method contains no
`try`/`except` at all, so every engine failure after the graph lookup escapes
the handler as the native exception.  The engine steps are: extract a
subgraph when the looked-up graph is a (single-GPU) `PropertyGraph`
(`extractOutcome`), run `sampling.uniform_neighbor_sample` (`sampleOutcome`),
and build the result graph from the sampling output (`buildOutcome`, covering
the series manipulation, renumbering and result-graph construction); on
success the result graph is registered and its new id returned. -/
def uniform_neighbor_sample (graph_id : Nat)
    (extractOutcome : EngineOutcome GraphObj)
    (sampleOutcome : EngineOutcome Unit)
    (buildOutcome : EngineOutcome GraphObj)
    (s : HandlerState) : Except Exc Nat × HandlerState :=
  match _get_graph graph_id s with
  | Except.error e => (Except.error e, s)
  | Except.ok (G, s1) =>
      match (if G.kind = GraphKind.propertyGraph then extractOutcome
             else EngineOutcome.ok G) with
      | EngineOutcome.raises msg => (Except.error (Exc.native msg), s1)
      | EngineOutcome.ok _ =>
          match sampleOutcome with
          | EngineOutcome.raises msg => (Except.error (Exc.native msg), s1)
          | EngineOutcome.ok _ =>
              match buildOutcome with
              | EngineOutcome.raises msg => (Except.error (Exc.native msg), s1)
              | EngineOutcome.ok newG =>
                  let r := add_graph newG s1
                  (Except.ok r.1, r.2)

/-! ### Dataframe row selection

`GaasHandler.__get_dataframe_rows_as_numpy_bytes` receives the row selector as
a Thrift `DataframeRowIndex` union, decodes it to a plain Python object, and
selects rows with the engine `iloc` indexer.  A row of the engine dataframe is
modelled by its identity only (the claims are about which rows are selected in
which order); the null substitution applied by `to_numpy(na_value=n)` and the
numpy pickling do not touch row selection and are elided. -/

/-- A row of the engine dataframe, by identity. -/
abbrev Row := Nat

/-- The Thrift union `DataframeRowIndex` from `gaas_thrift.py`: exactly one of
a single 32- or 64-bit index or a list of 32- or 64-bit indices. -/
inductive DataframeRowIndex where
  | int32_index (i : Int)
  | int64_index (i : Int)
  | int32_indices (l : List Int)
  | int64_indices (l : List Int)
deriving DecidableEq, Repr

/-- The decoded form: a plain int or a plain list of ints. -/
inductive PyIndex where
  | int (i : Int)
  | list (l : List Int)
deriving DecidableEq, Repr

/-- Modelled from the spec: `DataframeRowIndexWrapper.get_py_obj` of the client
types module (`gaas_client.types`, not under src) returns the native value of
the single populated union field - a plain int for the single-index variants,
a list of ints for the index-list variants. -/
def DataframeRowIndexWrapper_get_py_obj : DataframeRowIndex → PyIndex
  | DataframeRowIndex.int32_index i => PyIndex.int i
  | DataframeRowIndex.int64_index i => PyIndex.int i
  | DataframeRowIndex.int32_indices l => PyIndex.list l
  | DataframeRowIndex.int64_indices l => PyIndex.list l

/-- The engine positional indexer (`iloc`) on a single position: a negative
position counts from the end of the dataframe, an out-of-range position is an
`IndexError` (here: none). -/
def ilocOne (df : List Row) (i : Int) : Option Row :=
  let k : Int := if i < 0 then i + df.length else i
  if k < 0 then none else df.get? k.toNat

/-- The engine positional indexer on a list of positions: each position is
resolved as in `ilocOne`, in the given order, duplicates preserved; any
out-of-range position makes the whole lookup an `IndexError`. -/
def ilocList (df : List Row) : List Int → Option (List Row)
  | [] => some []
  | i :: rest =>
      match ilocOne df i, ilocList df rest with
      | some r, some rs => some (r :: rs)
      | _, _ => none

/-- `GaasHandler.__get_dataframe_rows_as_numpy_bytes`, row-selection part.
Everything runs inside a bare `try`/`except` that re-raises any failure as
`GaasError(traceback)`, so every error result here is the uniform kind.  The
decoded index is checked with `isinstance(i, int) and (i < -1)` - so only a
single int strictly below -1 trips the explicit `IndexError`; a single -1
selects the whole dataframe; anything else (a single non-negative int or any
list, negative entries included) is handed to the engine indexer. -/
def get_dataframe_rows_as_numpy_bytes (df : List Row)
    (index_or_indices : DataframeRowIndex) : Except Exc (List Row) :=
  match DataframeRowIndexWrapper_get_py_obj index_or_indices with
  | PyIndex.int i =>
      if i < -1 then
        Except.error
          (Exc.gaas ("an index must be -1 or greater, got " ++ toString i))
      else if i = -1 then
        Except.ok df
      else
        match ilocOne df i with
        | some r => Except.ok [r]
        | none =>
            Except.error
              (Exc.gaas "IndexError: positional indexer is out-of-bounds")
  | PyIndex.list l =>
      match ilocList df l with
      | some rs => Except.ok rs
      | none =>
          Except.error
            (Exc.gaas "IndexError: positional indexer is out-of-bounds")

/-! ### Registry operation traces -/

/-- One registry-touching RPC operation, with the oracle outcomes its handler
needs baked into the constructor. -/
inductive RegistryOp where
  | create
  | delete (gid : Nat)
  | get (gid : Nat)
  | callExt (fn : String) (ea ek : EvalOutcome) (c : CallOutcome)
deriving DecidableEq, Repr

/-- Run one registry operation against the state, returning the new state and
the graph id the operation returned, if any.  A raised error leaves the state
as the handler left it. -/
def stepOp (s : HandlerState) : RegistryOp → HandlerState × Option Nat
  | RegistryOp.create =>
      let r := create_graph s
      (r.2, some r.1)
  | RegistryOp.delete gid =>
      match delete_graph gid s with
      | Except.ok s' => (s', none)
      | Except.error _ => (s, none)
  | RegistryOp.get gid =>
      match _get_graph gid s with
      | Except.ok (_, s') => (s', none)
      | Except.error _ => (s, none)
  | RegistryOp.callExt fn ea ek c =>
      let r := call_graph_creation_extension fn ea ek c s
      (r.2.1, r.1.toOption)

/-- Run a sequence of registry operations. -/
def runState (s : HandlerState) (ops : List RegistryOp) : HandlerState :=
  ops.foldl (fun s op => (stepOp s op).1) s

/-- The ids returned by the `create_graph` calls of a trace, in call order. -/
def createIds : HandlerState → List RegistryOp → List Nat
  | _, [] => []
  | s, RegistryOp.create :: rest =>
      (create_graph s).1 :: createIds (stepOp s RegistryOp.create).1 rest
  | s, RegistryOp.delete gid :: rest =>
      createIds (stepOp s (RegistryOp.delete gid)).1 rest
  | s, RegistryOp.get gid :: rest =>
      createIds (stepOp s (RegistryOp.get gid)).1 rest
  | s, RegistryOp.callExt fn ea ek c :: rest =>
      createIds (stepOp s (RegistryOp.callExt fn ea ek c)).1 rest

/-! ### Helper lemmas: dict operations -/

theorem dictGet_dictInsert_self {β : Type} (d : List (Nat × β)) (k : Nat) (v : β) :
    dictGet (dictInsert d k v) k = some v := by
  induction d with
  | nil => simp [dictInsert, dictGet]
  | cons kv rest ih =>
      obtain ⟨k', v'⟩ := kv
      by_cases h : k' = k <;> simp [dictInsert, dictGet, h, ih]

theorem dictKeys_nil {β : Type} : dictKeys ([] : List (Nat × β)) = [] := rfl

theorem dictKeys_cons {β : Type} (k0 : Nat) (v0 : β) (rest : List (Nat × β)) :
    dictKeys ((k0, v0) :: rest) = k0 :: dictKeys rest := rfl

theorem mem_dictKeys_dictInsert {β : Type} {d : List (Nat × β)} {k k' : Nat}
    {v : β} (h : k' ∈ dictKeys (dictInsert d k v)) :
    k' = k ∨ k' ∈ dictKeys d := by
  induction d with
  | nil => simpa [dictInsert, dictKeys_cons, dictKeys_nil] using h
  | cons kv rest ih =>
      obtain ⟨k0, v0⟩ := kv
      by_cases hk : k0 = k
      · rw [dictInsert, if_pos hk, dictKeys_cons] at h
        rw [dictKeys_cons]
        rcases List.mem_cons.1 h with h | h
        · exact Or.inl h
        · exact Or.inr (List.mem_cons.2 (Or.inr h))
      · rw [dictInsert, if_neg hk, dictKeys_cons] at h
        rw [dictKeys_cons]
        rcases List.mem_cons.1 h with h | h
        · exact Or.inr (List.mem_cons.2 (Or.inl h))
        · rcases ih h with h' | h'
          · exact Or.inl h'
          · exact Or.inr (List.mem_cons.2 (Or.inr h'))

theorem mem_dictKeys_dictRemove {β : Type} {d : List (Nat × β)} {k k' : Nat}
    (h : k' ∈ dictKeys (dictRemove d k)) : k' ∈ dictKeys d := by
  induction d with
  | nil => simpa [dictRemove] using h
  | cons kv rest ih =>
      obtain ⟨k0, v0⟩ := kv
      rw [dictKeys_cons]
      by_cases hk : k0 = k
      · rw [dictRemove, if_pos hk] at h
        exact List.mem_cons.2 (Or.inr h)
      · rw [dictRemove, if_neg hk, dictKeys_cons] at h
        rcases List.mem_cons.1 h with h | h
        · exact List.mem_cons.2 (Or.inl h)
        · exact List.mem_cons.2 (Or.inr (ih h))

theorem dictGet_eq_none_iff {β : Type} (d : List (Nat × β)) (k : Nat) :
    dictGet d k = none ↔ k ∉ dictKeys d := by
  induction d with
  | nil => simp [dictGet, dictKeys_nil]
  | cons kv rest ih =>
      obtain ⟨k0, v0⟩ := kv
      by_cases h : k0 = k
      · subst h
        simp [dictGet, dictKeys_cons]
      · simp only [dictGet, if_neg h, dictKeys_cons, List.mem_cons, ih]
        constructor
        · intro h1
          rintro (h2 | h2)
          · exact h (h2.symm)
          · exact h1 h2
        · intro h1 h2
          exact h1 (Or.inr h2)

theorem dictGet_dictRemove_self {β : Type} {d : List (Nat × β)} {k : Nat}
    (h : (dictKeys d).Nodup) : dictGet (dictRemove d k) k = none := by
  induction d with
  | nil => rfl
  | cons kv rest ih =>
      obtain ⟨k0, v0⟩ := kv
      rw [dictKeys_cons, List.nodup_cons] at h
      by_cases hk : k0 = k
      · subst hk
        simp only [dictRemove, if_pos rfl]
        exact (dictGet_eq_none_iff rest k0).2 h.1
      · simp only [dictRemove, if_neg hk, dictGet, if_neg hk]
        exact ih h.2

/-! ### Helper lemmas: module resolution -/

theorem findModule_eq_none {mods : List ExtensionModule} {fn : String}
    (h : ∀ m ∈ mods, fn ∉ m.funcs) : findModule mods fn = none := by
  induction mods with
  | nil => rfl
  | cons m rest ih =>
      rw [findModule, if_neg (h m (List.mem_cons_self m rest))]
      exact ih fun m' hm' => h m' (List.mem_cons.2 (Or.inr hm'))

theorem findModule_first {pre post : List ExtensionModule}
    {m : ExtensionModule} {fn : String} (hm : fn ∈ m.funcs)
    (hpre : ∀ m' ∈ pre, fn ∉ m'.funcs) :
    findModule (pre ++ m :: post) fn = some m := by
  induction pre with
  | nil => simp [findModule, hm]
  | cons p rest ih =>
      rw [List.cons_append, findModule,
          if_neg (hpre p (List.mem_cons_self p rest))]
      exact ih fun m' hm' => hpre m' (List.mem_cons.2 (Or.inr hm'))

/-! ### Helper lemmas: the engine positional indexer -/

theorem get_opt_eq_some_getD (df : List Row) (n : Nat) (h : n < df.length) :
    df.get? n = some (df.getD n 0) := by
  induction df generalizing n with
  | nil => simp at h
  | cons a t ih =>
      cases n with
      | zero => rfl
      | succ m => exact ih m (by simpa using h)

theorem ilocOne_of_nonneg {df : List Row} {i : Int} (h0 : 0 ≤ i)
    (hlt : i < (df.length : Int)) :
    ilocOne df i = some (df.getD i.toNat 0) := by
  unfold ilocOne
  have hn : ¬ i < 0 := by omega
  simp only [if_neg hn]
  exact get_opt_eq_some_getD df i.toNat (by omega)

theorem ilocList_all_nonneg (df : List Row) (l : List Int)
    (h : ∀ j ∈ l, 0 ≤ j ∧ j < (df.length : Int)) :
    ilocList df l = some (l.map fun j => df.getD j.toNat 0) := by
  induction l with
  | nil => rfl
  | cons a t ih =>
      obtain ⟨ha0, halt⟩ := h a (List.mem_cons_self a t)
      rw [List.map_cons, ilocList, ilocOne_of_nonneg ha0 halt,
          ih fun j hj => h j (List.mem_cons.2 (Or.inr hj))]

/-! ### Helper lemmas: registry traces -/

theorem stepOp_next_mono (s : HandlerState) (op : RegistryOp) :
    s.next_graph_id ≤ ((stepOp s op).1).next_graph_id := by
  cases op with
  | create => simp [stepOp, create_graph, add_graph, create_graph_obj]
  | delete gid =>
      simp only [stepOp, delete_graph]
      cases dictGet s.graph_objs gid <;> simp
  | get gid =>
      simp only [stepOp, _get_graph]
      cases dictGet s.graph_objs gid with
      | some pG => simp
      | none =>
          by_cases h : gid = defaults_graph_id <;>
            simp [h, create_graph_obj]
  | callExt fn ea ek c =>
      simp only [stepOp, call_graph_creation_extension]
      by_cases hs : pyStartswith fn "__" = false
      · simp only [if_pos hs]
        cases findModule s.graph_creation_extensions fn with
        | none => simp
        | some m =>
            cases ea with
            | raises msg => simp
            | ok =>
                cases ek with
                | raises msg => simp
                | ok =>
                    cases c with
                    | raises msg => simp
                    | ok g => simp [add_graph]
      · simp [if_neg hs]

theorem stepOp_create_next (s : HandlerState) :
    ((stepOp s RegistryOp.create).1).next_graph_id = s.next_graph_id + 1 := by
  simp [stepOp, create_graph, add_graph, create_graph_obj]

theorem mem_keys_stepOp (s : HandlerState) (op : RegistryOp) (k : Nat)
    (hk : k ∈ dictKeys ((stepOp s op).1).graph_objs) :
    k ∈ dictKeys s.graph_objs ∨ k = s.next_graph_id ∨ k = defaults_graph_id := by
  cases op with
  | create =>
      simp only [stepOp, create_graph, add_graph, create_graph_obj] at hk
      rcases mem_dictKeys_dictInsert hk with h | h
      · exact Or.inr (Or.inl h)
      · exact Or.inl h
  | delete gid =>
      simp only [stepOp, delete_graph] at hk
      cases hg : dictGet s.graph_objs gid <;> rw [hg] at hk
      · exact Or.inl hk
      · exact Or.inl (mem_dictKeys_dictRemove hk)
  | get gid =>
      simp only [stepOp, _get_graph] at hk
      cases hg : dictGet s.graph_objs gid <;> rw [hg] at hk
      · by_cases h : gid = defaults_graph_id
        · rw [if_pos h] at hk
          simp only [create_graph_obj] at hk
          rcases mem_dictKeys_dictInsert hk with h' | h'
          · exact Or.inr (Or.inr (h ▸ h'))
          · exact Or.inl h'
        · rw [if_neg h] at hk
          exact Or.inl hk
      · exact Or.inl hk
  | callExt fn ea ek c =>
      simp only [stepOp, call_graph_creation_extension] at hk
      by_cases hs : pyStartswith fn "__" = false
      · rw [if_pos hs] at hk
        cases hm : findModule s.graph_creation_extensions fn <;> rw [hm] at hk
        · exact Or.inl hk
        · cases ea with
          | raises msg => exact Or.inl hk
          | ok =>
              cases ek with
              | raises msg => exact Or.inl hk
              | ok =>
                  cases c with
                  | raises msg => exact Or.inl hk
                  | ok g =>
                      simp only [add_graph] at hk
                      rcases mem_dictKeys_dictInsert hk with h | h
                      · exact Or.inr (Or.inl h)
                      · exact Or.inl h
      · rw [if_neg hs] at hk
        exact Or.inl hk

theorem stepOp_preserves_absent (s : HandlerState) (op : RegistryOp)
    (gid : Nat) (hgid : gid ≠ defaults_graph_id)
    (habs : gid ∉ dictKeys s.graph_objs) (hlt : gid < s.next_graph_id) :
    gid ∉ dictKeys ((stepOp s op).1).graph_objs
    ∧ gid < ((stepOp s op).1).next_graph_id := by
  constructor
  · intro hk
    rcases mem_keys_stepOp s op gid hk with h | h | h
    · exact habs h
    · omega
    · exact hgid h
  · exact lt_of_lt_of_le hlt (stepOp_next_mono s op)

theorem runState_nil (s : HandlerState) : runState s [] = s := rfl

theorem runState_cons (s : HandlerState) (op : RegistryOp)
    (ops : List RegistryOp) :
    runState s (op :: ops) = runState ((stepOp s op).1) ops := rfl

theorem runState_append (s : HandlerState) (ops1 ops2 : List RegistryOp) :
    runState s (ops1 ++ ops2) = runState (runState s ops1) ops2 := by
  unfold runState
  exact List.foldl_append _ _ _ _

theorem runState_preserves_absent (ops : List RegistryOp) :
    ∀ (s : HandlerState) (gid : Nat), gid ≠ defaults_graph_id →
      gid ∉ dictKeys s.graph_objs → gid < s.next_graph_id →
      gid ∉ dictKeys (runState s ops).graph_objs
      ∧ gid < (runState s ops).next_graph_id := by
  induction ops with
  | nil => intro s gid _ habs hlt; exact ⟨habs, hlt⟩
  | cons op rest ih =>
      intro s gid hgid habs hlt
      obtain ⟨habs', hlt'⟩ := stepOp_preserves_absent s op gid hgid habs hlt
      rw [runState_cons]
      exact ih _ gid hgid habs' hlt'

theorem createIds_lb (ops : List RegistryOp) :
    ∀ (s : HandlerState), ∀ i ∈ createIds s ops, s.next_graph_id ≤ i := by
  induction ops with
  | nil => intro s i hi; simp [createIds] at hi
  | cons op rest ih =>
      intro s i hi
      cases op with
      | create =>
          rw [createIds] at hi
          rcases List.mem_cons.1 hi with h | h
          · subst h
            simp [create_graph, add_graph, create_graph_obj]
          · have h1 := ih _ i h
            have h2 := stepOp_create_next s
            omega
      | delete gid =>
          rw [createIds] at hi
          have h1 := ih _ i hi
          have h2 := stepOp_next_mono s (RegistryOp.delete gid)
          omega
      | get gid =>
          rw [createIds] at hi
          have h1 := ih _ i hi
          have h2 := stepOp_next_mono s (RegistryOp.get gid)
          omega
      | callExt fn ea ek c =>
          rw [createIds] at hi
          have h1 := ih _ i hi
          have h2 := stepOp_next_mono s (RegistryOp.callExt fn ea ek c)
          omega

theorem createIds_pairwise (ops : List RegistryOp) :
    ∀ (s : HandlerState), (createIds s ops).Pairwise (· < ·) := by
  induction ops with
  | nil => intro s; simp [createIds]
  | cons op rest ih =>
      intro s
      cases op with
      | create =>
          rw [createIds]
          refine List.pairwise_cons.2 ⟨?_, ih _⟩
          intro b hb
          have h1 := createIds_lb rest _ b hb
          have h2 := stepOp_create_next s
          have h3 : (create_graph s).1 = s.next_graph_id := by
            simp [create_graph, add_graph, create_graph_obj]
          omega
      | delete gid => rw [createIds]; exact ih _
      | get gid => rw [createIds]; exact ih _
      | callExt fn ea ek c => rw [createIds]; exact ih _

/-! ### Claim theorems -/

/-- C2 (counterexample): the reserved default id 0 IS reused after deletion.
Accessing the default graph stores a graph object (token 0) under id 0;
`delete_graph 0` removes it; a later access stores a DIFFERENT graph object
(token 1) under the same id 0.  This refutes the clause of C2 that extends id
non-reuse to the reserved default id. -/
theorem spec_c2_counterexample :
    dictGet (runState initState
        [RegistryOp.get defaults_graph_id]).graph_objs defaults_graph_id
      = some ⟨GraphKind.propertyGraph, 0, 0, [], []⟩
    ∧ dictGet (runState initState
        [RegistryOp.get defaults_graph_id,
         RegistryOp.delete defaults_graph_id]).graph_objs defaults_graph_id
      = none
    ∧ dictGet (runState initState
        [RegistryOp.get defaults_graph_id,
         RegistryOp.delete defaults_graph_id,
         RegistryOp.get defaults_graph_id]).graph_objs defaults_graph_id
      = some ⟨GraphKind.propertyGraph, 1, 0, [], []⟩ :=
  ⟨rfl, rfl, rfl⟩

/-- C2 (amended): over any sequence of registry operations from handler start,
the ids returned by the `create_graph` calls are pairwise distinct and strictly
increasing in call order and all lie strictly above the reserved default id;
and any id other than the reserved default id that is absent from the registry
while below the allocation counter (in particular any deleted
counter-allocated id) is never mapped again.  (The reserved default id itself
is excluded: after deletion the default graph is lazily re-created under
id 0.) -/
theorem spec_c2_amended (ops pre post : List RegistryOp) (gid : Nat)
    (hops : ops = pre ++ post)
    (hgid : gid ≠ defaults_graph_id)
    (habsent : gid ∉ dictKeys (runState initState pre).graph_objs)
    (hlt : gid < (runState initState pre).next_graph_id) :
    (createIds initState ops).Pairwise (· < ·)
    ∧ (∀ i ∈ createIds initState ops, defaults_graph_id < i)
    ∧ gid ∉ dictKeys (runState initState ops).graph_objs := by
  refine ⟨createIds_pairwise ops initState, ?_, ?_⟩
  · intro i hi
    have h1 := createIds_lb ops initState i hi
    have h2 : initState.next_graph_id = defaults_graph_id + 1 := rfl
    omega
  · subst hops
    rw [runState_append]
    exact (runState_preserves_absent post _ gid hgid habsent hlt).1

/-- C2 witness: a concrete trace - create (id 1), create (id 2), delete id 1,
then create again (id 3): the returned ids 1, 2, 3 are strictly increasing and
positive, and the deleted id 1 is absent from the final registry. -/
theorem spec_c2_amended_witness :
    (createIds initState
        [RegistryOp.create, RegistryOp.create, RegistryOp.delete 1,
         RegistryOp.create]).Pairwise (· < ·)
    ∧ (∀ i ∈ createIds initState
        [RegistryOp.create, RegistryOp.create, RegistryOp.delete 1,
         RegistryOp.create], defaults_graph_id < i)
    ∧ 1 ∉ dictKeys (runState initState
        [RegistryOp.create, RegistryOp.create, RegistryOp.delete 1,
         RegistryOp.create]).graph_objs :=
  spec_c2_amended
    [RegistryOp.create, RegistryOp.create, RegistryOp.delete 1,
     RegistryOp.create]
    [RegistryOp.create, RegistryOp.create, RegistryOp.delete 1]
    [RegistryOp.create] 1 rfl (by decide) (by decide) (by decide)

/-- C3 (counterexample): for the reserved default id, deleting the default
graph and then calling `get_num_edges` on the same id does NOT fail: the
lazy-creation path of `_get_graph` silently re-creates the default graph, and
the call returns 0 edges.  This refutes the clause of C3 that includes the
reserved default id. -/
theorem spec_c3_counterexample :
    delete_graph defaults_graph_id
        (runState initState [RegistryOp.get defaults_graph_id])
      = Except.ok (runState initState
          [RegistryOp.get defaults_graph_id,
           RegistryOp.delete defaults_graph_id])
    ∧ get_num_edges defaults_graph_id
        (runState initState
          [RegistryOp.get defaults_graph_id,
           RegistryOp.delete defaults_graph_id])
      = Except.ok (0, runState initState
          [RegistryOp.get defaults_graph_id,
           RegistryOp.delete defaults_graph_id,
           RegistryOp.get defaults_graph_id]) :=
  ⟨rfl, rfl⟩

/-- C3 (amended): `delete_graph` fails with the not-found error when the id is
absent, and on success removes the mapping; and for every id OTHER than the
reserved default id, a subsequent `get_num_edges` on the deleted id fails with
the not-found error.  (For the default id the subsequent call succeeds because
the default graph is lazily re-created.) -/
theorem spec_c3_amended (s s' : HandlerState) (gid : Nat)
    (hnodup : (dictKeys s.graph_objs).Nodup) :
    (dictGet s.graph_objs gid = none →
       delete_graph gid s
         = Except.error (Exc.gaas ("invalid graph_id " ++ toString gid)))
    ∧ (delete_graph gid s = Except.ok s' →
       dictGet s'.graph_objs gid = none)
    ∧ (gid ≠ defaults_graph_id → delete_graph gid s = Except.ok s' →
       get_num_edges gid s'
         = Except.error (Exc.gaas ("invalid graph_id " ++ toString gid))) := by
  have hdel : delete_graph gid s = Except.ok s' →
      dictGet s'.graph_objs gid = none := by
    intro h
    unfold delete_graph at h
    cases hg : dictGet s.graph_objs gid <;> rw [hg] at h
    · exact absurd h (by simp)
    · have hs' : s' = { s with graph_objs := dictRemove s.graph_objs gid } := by
        cases h
        rfl
      rw [hs']
      exact dictGet_dictRemove_self hnodup
  refine ⟨?_, hdel, ?_⟩
  · intro h
    unfold delete_graph
    rw [h]
  · intro hne h
    have h2 := hdel h
    unfold get_num_edges _get_graph
    rw [h2, if_neg hne]

/-- C3 witness: create a graph (id 1), delete it, and observe `get_num_edges 1`
fail with the not-found error. -/
theorem spec_c3_amended_witness :
    get_num_edges 1
        (runState initState [RegistryOp.create, RegistryOp.delete 1])
      = Except.error (Exc.gaas ("invalid graph_id " ++ toString 1)) :=
  (spec_c3_amended (runState initState [RegistryOp.create])
      (runState initState [RegistryOp.create, RegistryOp.delete 1]) 1
      (by decide)).2.2 (by decide) rfl

/-- C4: looking up the reserved default id when absent lazily creates, stores
and returns one new empty graph (fresh object identity, zero edges, stored
under the default id); looking up any stored id returns the stored graph
object with the state untouched (so a second default lookup returns the very
graph stored by the first and creates nothing); looking up any other absent id
fails with the not-found error. -/
theorem spec_c4 (s : HandlerState) (gid : Nat) (g : GraphObj) :
    (dictGet s.graph_objs defaults_graph_id = none →
       ∃ g0 s0, _get_graph defaults_graph_id s = Except.ok (g0, s0)
         ∧ dictGet s0.graph_objs defaults_graph_id = some g0
         ∧ g0.token = s.next_token
         ∧ g0.numEdges = 0
         ∧ s0.next_token = s.next_token + 1)
    ∧ (dictGet s.graph_objs gid = some g →
       _get_graph gid s = Except.ok (g, s))
    ∧ (∀ g1 s1, _get_graph defaults_graph_id s = Except.ok (g1, s1) →
       _get_graph defaults_graph_id s1 = Except.ok (g1, s1))
    ∧ (gid ≠ defaults_graph_id → dictGet s.graph_objs gid = none →
       _get_graph gid s
         = Except.error (Exc.gaas ("invalid graph_id " ++ toString gid))) := by
  refine ⟨?_, ?_, ?_, ?_⟩
  · intro h
    refine ⟨(create_graph_obj s).1,
      { (create_graph_obj s).2 with
          graph_objs := dictInsert (create_graph_obj s).2.graph_objs
            defaults_graph_id (create_graph_obj s).1 }, ?_, ?_, rfl, rfl, rfl⟩
    · unfold _get_graph
      rw [h, if_pos rfl]
    · exact dictGet_dictInsert_self _ _ _
  · intro h
    unfold _get_graph
    rw [h]
  · intro g1 s1 h
    cases hg : dictGet s.graph_objs defaults_graph_id with
    | none =>
        have he : _get_graph defaults_graph_id s
            = Except.ok ((create_graph_obj s).1,
                { (create_graph_obj s).2 with
                    graph_objs := dictInsert (create_graph_obj s).2.graph_objs
                      defaults_graph_id (create_graph_obj s).1 }) := by
          unfold _get_graph
          rw [hg, if_pos rfl]
        rw [he] at h
        simp only [Except.ok.injEq, Prod.mk.injEq] at h
        obtain ⟨h1, h2⟩ := h
        subst h1
        subst h2
        unfold _get_graph
        rw [dictGet_dictInsert_self]
    | some pG =>
        have he : _get_graph defaults_graph_id s = Except.ok (pG, s) := by
          unfold _get_graph
          rw [hg]
        rw [he] at h
        simp only [Except.ok.injEq, Prod.mk.injEq] at h
        obtain ⟨h1, h2⟩ := h
        subst h1
        subst h2
        exact he
  · intro hne h
    unfold _get_graph
    rw [h, if_neg hne]

/-- C4 witness: on the fresh handler state the default lookup succeeds
(lazily creating the default graph) and a lookup of absent id 7 fails with the
not-found error. -/
theorem spec_c4_witness :
    (∃ g0 s0, _get_graph defaults_graph_id initState = Except.ok (g0, s0)
       ∧ dictGet s0.graph_objs defaults_graph_id = some g0
       ∧ g0.token = initState.next_token
       ∧ g0.numEdges = 0
       ∧ s0.next_token = initState.next_token + 1)
    ∧ _get_graph 7 initState
        = Except.error (Exc.gaas ("invalid graph_id " ++ toString 7)) :=
  ⟨(spec_c4 initState 7 ⟨GraphKind.propertyGraph, 0, 0, [], []⟩).1 rfl,
   (spec_c4 initState 7 ⟨GraphKind.propertyGraph, 0, 0, [], []⟩).2.2.2
     (by decide) rfl⟩

/-- C5: `call_graph_creation_extension` rejects double-underscore names
outright (never resolving them, even if a loaded module exposes them), fails
with the validation error when no loaded module exposes the name, and
otherwise invokes the function of the FIRST module in load order exposing the
name - so when two modules define the same name, the earlier-loaded one is
invoked. -/
theorem spec_c5 (s : HandlerState) (fn : String) (ea ek : EvalOutcome)
    (c : CallOutcome) (pre post : List ExtensionModule) (m : ExtensionModule) :
    (pyStartswith fn "__" = true →
       (call_graph_creation_extension fn ea ek c s).1
         = Except.error (Exc.gaas (fn ++ " is not a graph creation extension")))
    ∧ ((∀ m' ∈ s.graph_creation_extensions, fn ∉ m'.funcs) →
       (call_graph_creation_extension fn ea ek c s).1
         = Except.error (Exc.gaas (fn ++ " is not a graph creation extension")))
    ∧ (s.graph_creation_extensions = pre ++ m :: post → fn ∈ m.funcs →
       (∀ m' ∈ pre, fn ∉ m'.funcs) → pyStartswith fn "__" = false →
       (call_graph_creation_extension fn EvalOutcome.ok EvalOutcome.ok c s).2.2
         = [Effect.evalArgs, Effect.evalKwargs, Effect.invokeExt m.name fn]) := by
  refine ⟨?_, ?_, ?_⟩
  · intro h
    have h' : ¬ pyStartswith fn "__" = false := by simp [h]
    simp [call_graph_creation_extension, h']
  · intro h
    have hnone := findModule_eq_none h
    by_cases hs : pyStartswith fn "__" = false <;>
      simp [call_graph_creation_extension, hs, hnone]
  · intro hexts hmem hpre hs
    have hfind : findModule s.graph_creation_extensions fn = some m := by
      rw [hexts]
      exact findModule_first hmem hpre
    cases c <;> simp [call_graph_creation_extension, hs, hfind]

/-- C5 witness: two loaded modules both exposing `make`; a private name and an
unknown name fail with the validation error, and dispatch of `make` invokes
the earlier-loaded module `ext_a`. -/
theorem spec_c5_witness :
    (call_graph_creation_extension "__make" EvalOutcome.ok EvalOutcome.ok
        (CallOutcome.ok ⟨GraphKind.propertyGraph, 9, 0, [], []⟩)
        ⟨1, [], [⟨"ext_a", ["make"]⟩, ⟨"ext_b", ["make"]⟩], none, none, 0⟩).1
      = Except.error (Exc.gaas ("__make" ++ " is not a graph creation extension"))
    ∧ (call_graph_creation_extension "make" EvalOutcome.ok EvalOutcome.ok
        (CallOutcome.ok ⟨GraphKind.propertyGraph, 9, 0, [], []⟩)
        ⟨1, [], [⟨"ext_a", ["make"]⟩, ⟨"ext_b", ["make"]⟩], none, none, 0⟩).2.2
      = [Effect.evalArgs, Effect.evalKwargs, Effect.invokeExt "ext_a" "make"] :=
  ⟨(spec_c5 ⟨1, [], [⟨"ext_a", ["make"]⟩, ⟨"ext_b", ["make"]⟩], none, none, 0⟩
      "__make" EvalOutcome.ok EvalOutcome.ok
      (CallOutcome.ok ⟨GraphKind.propertyGraph, 9, 0, [], []⟩)
      [] [⟨"ext_b", ["make"]⟩] ⟨"ext_a", ["make"]⟩).1 (by decide),
   (spec_c5 ⟨1, [], [⟨"ext_a", ["make"]⟩, ⟨"ext_b", ["make"]⟩], none, none, 0⟩
      "make" EvalOutcome.ok EvalOutcome.ok
      (CallOutcome.ok ⟨GraphKind.propertyGraph, 9, 0, [], []⟩)
      [] [⟨"ext_b", ["make"]⟩] ⟨"ext_a", ["make"]⟩).2.2 rfl (by decide)
      (by decide) (by decide)⟩

/-- C6: when a loaded module resolves the (non-private) function name and the
argument evals succeed, a failure raised inside the extension function is
caught and re-raised as the uniform error whose message embeds the function
name and the textual detail of the original failure; the state is unchanged
and the trace shows the invocation.  In particular the error is the uniform
`GaasError` kind, never a native exception. -/
theorem spec_c6 (s : HandlerState) (fn : String) (m : ExtensionModule)
    (cmsg : String)
    (hfind : findModule s.graph_creation_extensions fn = some m)
    (hpriv : pyStartswith fn "__" = false) :
    call_graph_creation_extension fn EvalOutcome.ok EvalOutcome.ok
        (CallOutcome.raises cmsg) s
      = (Except.error (Exc.gaas ("error running " ++ fn ++ " : " ++ cmsg)), s,
         [Effect.evalArgs, Effect.evalKwargs, Effect.invokeExt m.name fn]) := by
  simp [call_graph_creation_extension, hpriv, hfind]

/-- C6 witness: a module `ext_a` exposing `make`; invoking `make` with a
failing function body surfaces the uniform error carrying the detail. -/
theorem spec_c6_witness :
    call_graph_creation_extension "make" EvalOutcome.ok EvalOutcome.ok
        (CallOutcome.raises "ZeroDivisionError: division by zero")
        ⟨1, [], [⟨"ext_a", ["make"]⟩], none, none, 0⟩
      = (Except.error (Exc.gaas ("error running " ++ "make" ++ " : "
           ++ "ZeroDivisionError: division by zero")),
         ⟨1, [], [⟨"ext_a", ["make"]⟩], none, none, 0⟩,
         [Effect.evalArgs, Effect.evalKwargs, Effect.invokeExt "ext_a" "make"]) :=
  spec_c6 ⟨1, [], [⟨"ext_a", ["make"]⟩], none, none, 0⟩ "make"
    ⟨"ext_a", ["make"]⟩ "ZeroDivisionError: division by zero" rfl (by decide)

/-- C10: when the function name starts with a double underscore or no loaded
module exposes it, the call fails with the validation error, the handler state
is unchanged (no graph added, no id allocated), and the effect trace is empty:
neither client-supplied argument repr is evaluated and nothing is invoked. -/
theorem spec_c10 (s : HandlerState) (fn : String) (ea ek : EvalOutcome)
    (c : CallOutcome)
    (h : pyStartswith fn "__" = true
         ∨ findModule s.graph_creation_extensions fn = none) :
    (call_graph_creation_extension fn ea ek c s).2.1 = s
    ∧ (call_graph_creation_extension fn ea ek c s).2.2 = []
    ∧ (call_graph_creation_extension fn ea ek c s).1
        = Except.error (Exc.gaas (fn ++ " is not a graph creation extension")) := by
  rcases h with h | h
  · have h' : ¬ pyStartswith fn "__" = false := by simp [h]
    simp [call_graph_creation_extension, h']
  · by_cases hs : pyStartswith fn "__" = false <;>
      simp [call_graph_creation_extension, hs, h]

/-- C10 witness: a private name that a loaded module even exposes - the call
fails, evaluates nothing and leaves the state unchanged. -/
theorem spec_c10_witness :
    (call_graph_creation_extension "__secret" EvalOutcome.ok EvalOutcome.ok
        (CallOutcome.ok ⟨GraphKind.propertyGraph, 9, 0, [], []⟩)
        ⟨1, [], [⟨"ext_a", ["__secret"]⟩], none, none, 0⟩).2.1
      = ⟨1, [], [⟨"ext_a", ["__secret"]⟩], none, none, 0⟩
    ∧ (call_graph_creation_extension "__secret" EvalOutcome.ok EvalOutcome.ok
        (CallOutcome.ok ⟨GraphKind.propertyGraph, 9, 0, [], []⟩)
        ⟨1, [], [⟨"ext_a", ["__secret"]⟩], none, none, 0⟩).2.2
      = []
    ∧ (call_graph_creation_extension "__secret" EvalOutcome.ok EvalOutcome.ok
        (CallOutcome.ok ⟨GraphKind.propertyGraph, 9, 0, [], []⟩)
        ⟨1, [], [⟨"ext_a", ["__secret"]⟩], none, none, 0⟩).1
      = Except.error (Exc.gaas ("__secret" ++ " is not a graph creation extension")) :=
  spec_c10 ⟨1, [], [⟨"ext_a", ["__secret"]⟩], none, none, 0⟩ "__secret"
    EvalOutcome.ok EvalOutcome.ok
    (CallOutcome.ok ⟨GraphKind.propertyGraph, 9, 0, [], []⟩)
    (Or.inl (by decide))

/-- C7 (counterexample): a negative index other than -1 INSIDE an index list
does not fail with the validation error: the list bypasses the
`isinstance(i, int) and (i < -1)` check and is handed to the engine positional
indexer, which resolves -2 relative to the end.  On the 3-row dataframe with
rows 10, 20, 30, the selector list [0, -2] succeeds and returns rows 10 and
20. -/
theorem spec_c7_counterexample :
    get_dataframe_rows_as_numpy_bytes [10, 20, 30]
        (DataframeRowIndex.int32_indices [0, -2])
      = Except.ok [10, 20] := rfl

/-- C7 (amended): the single sentinel index -1 selects every row in storage
order; a single index strictly below -1 fails with the validation error; a
single non-negative in-range index selects exactly that one row; a list of
in-range non-negative indices selects the addressed rows in the given order,
duplicates preserved; and a list is otherwise passed through to the engine
indexer unvalidated - whatever row list the engine resolves (end-relative
negatives included) is returned without any validation error. -/
theorem spec_c7_amended (df : List Row) (i : Int) (l : List Int)
    (rs : List Row) :
    (get_dataframe_rows_as_numpy_bytes df (DataframeRowIndex.int32_index (-1))
       = Except.ok df)
    ∧ (i < -1 →
       get_dataframe_rows_as_numpy_bytes df (DataframeRowIndex.int32_index i)
         = Except.error
             (Exc.gaas ("an index must be -1 or greater, got " ++ toString i)))
    ∧ (0 ≤ i → i < (df.length : Int) →
       get_dataframe_rows_as_numpy_bytes df (DataframeRowIndex.int32_index i)
         = Except.ok [df.getD i.toNat 0])
    ∧ ((∀ j ∈ l, 0 ≤ j ∧ j < (df.length : Int)) →
       get_dataframe_rows_as_numpy_bytes df (DataframeRowIndex.int32_indices l)
         = Except.ok (l.map fun j => df.getD j.toNat 0))
    ∧ (ilocList df l = some rs →
       get_dataframe_rows_as_numpy_bytes df (DataframeRowIndex.int32_indices l)
         = Except.ok rs) := by
  refine ⟨?_, ?_, ?_, ?_, ?_⟩
  · simp [get_dataframe_rows_as_numpy_bytes, DataframeRowIndexWrapper_get_py_obj]
  · intro h
    simp [get_dataframe_rows_as_numpy_bytes, DataframeRowIndexWrapper_get_py_obj,
      h]
  · intro h0 hlt
    have h1 : ¬ i < -1 := by omega
    have h2 : ¬ i = -1 := by omega
    simp only [get_dataframe_rows_as_numpy_bytes,
      DataframeRowIndexWrapper_get_py_obj, if_neg h1, if_neg h2,
      ilocOne_of_nonneg h0 hlt]
  · intro h
    simp only [get_dataframe_rows_as_numpy_bytes,
      DataframeRowIndexWrapper_get_py_obj, ilocList_all_nonneg df l h]
  · intro h
    simp only [get_dataframe_rows_as_numpy_bytes,
      DataframeRowIndexWrapper_get_py_obj, h]

/-- C7 witness: on the 3-row dataframe 10, 20, 30 - the sentinel returns all
rows, a single -2 fails with the validation error, and the list [2, 0, 2]
returns rows 30, 10, 30 in order with the duplicate preserved. -/
theorem spec_c7_amended_witness :
    get_dataframe_rows_as_numpy_bytes [10, 20, 30]
        (DataframeRowIndex.int32_index (-1)) = Except.ok [10, 20, 30]
    ∧ get_dataframe_rows_as_numpy_bytes [10, 20, 30]
        (DataframeRowIndex.int32_index (-2))
      = Except.error
          (Exc.gaas ("an index must be -1 or greater, got " ++ toString (-2 : Int)))
    ∧ get_dataframe_rows_as_numpy_bytes [10, 20, 30]
        (DataframeRowIndex.int32_indices [2, 0, 2])
      = Except.ok (([2, 0, 2] : List Int).map fun j => [10, 20, 30].getD j.toNat 0) :=
  ⟨(spec_c7_amended [10, 20, 30] (-2) [2, 0, 2] []).1,
   (spec_c7_amended [10, 20, 30] (-2) [2, 0, 2] []).2.1 (by decide),
   (spec_c7_amended [10, 20, 30] (-2) [2, 0, 2] []).2.2.2.1 (by decide)⟩

/-- C8: when a dask client is attached, `shutdown_dask_client` performs the
teardown in the strict order - destroy inter-worker comms, close the client,
then close the cluster object exactly when the handler holds one (the field is
only ever set by the coordinator itself) - and returns to the uninitialized
state (no client, no cluster); when no client is attached, the call performs
no teardown action and leaves the state untouched. -/
theorem spec_c8 (s : HandlerState) :
    (s.dask_client ≠ none →
       (shutdown_dask_client s).2
         = [Effect.commsDestroy, Effect.clientClose]
             ++ (if s.dask_cluster ≠ none then [Effect.clusterClose] else [])
       ∧ (shutdown_dask_client s).1.dask_client = none
       ∧ (shutdown_dask_client s).1.dask_cluster = none)
    ∧ (s.dask_client = none → shutdown_dask_client s = (s, [])) := by
  constructor
  · intro h
    cases hc : s.dask_client with
    | none => exact absurd hc h
    | some c =>
        cases hk : s.dask_cluster with
        | none => simp [shutdown_dask_client, hc, hk]
        | some k => simp [shutdown_dask_client, hc, hk]
  · intro h
    simp [shutdown_dask_client, h]

/-- C8 witness: a state holding both a client and a coordinator-created
cluster tears down comms, client, then cluster, and ends uninitialized. -/
theorem spec_c8_witness :
    (shutdown_dask_client ⟨1, [], [], some 0, some 5, 0⟩).2
      = [Effect.commsDestroy, Effect.clientClose]
          ++ (if (⟨1, [], [], some 0, some 5, 0⟩ : HandlerState).dask_cluster ≠ none
              then [Effect.clusterClose] else [])
    ∧ (shutdown_dask_client ⟨1, [], [], some 0, some 5, 0⟩).1.dask_client = none
    ∧ (shutdown_dask_client ⟨1, [], [], some 0, some 5, 0⟩).1.dask_cluster = none :=
  (spec_c8 ⟨1, [], [], some 0, some 5, 0⟩).1 (by decide)

/-- C9: when the graph looked up for `graph_id` is a multi-GPU
`MGPropertyGraph`, both `is_vertex_property` and `is_edge_property` fail with
the uniform error "Graph does not contain properties" instead of returning a
boolean, because their guard tests only the single-GPU `PropertyGraph`
class. -/
theorem spec_c9 (s s' : HandlerState) (gid : Nat) (G : GraphObj)
    (property_key : String)
    (hget : _get_graph gid s = Except.ok (G, s'))
    (hkind : G.kind = GraphKind.mgPropertyGraph) :
    is_vertex_property property_key gid s
        = Except.error (Exc.gaas "Graph does not contain properties")
    ∧ is_edge_property property_key gid s
        = Except.error (Exc.gaas "Graph does not contain properties") := by
  have hne : ¬ G.kind = GraphKind.propertyGraph := by
    rw [hkind]
    intro hcontra
    exact absurd hcontra (by simp)
  constructor
  · simp [is_vertex_property, hget, hne]
  · simp [is_edge_property, hget, hne]

/-- C9 witness: a registry holding an `MGPropertyGraph` under id 1 (as created
by `create_graph` in distributed mode): both property checks fail with the
uniform error. -/
theorem spec_c9_witness :
    is_vertex_property "x" 1
        ⟨2, [(1, ⟨GraphKind.mgPropertyGraph, 3, 0, ["x"], ["y"]⟩)], [],
         some 0, none, 4⟩
      = Except.error (Exc.gaas "Graph does not contain properties")
    ∧ is_edge_property "y" 1
        ⟨2, [(1, ⟨GraphKind.mgPropertyGraph, 3, 0, ["x"], ["y"]⟩)], [],
         some 0, none, 4⟩
      = Except.error (Exc.gaas "Graph does not contain properties") :=
  ⟨(spec_c9 ⟨2, [(1, ⟨GraphKind.mgPropertyGraph, 3, 0, ["x"], ["y"]⟩)], [],
       some 0, none, 4⟩
     ⟨2, [(1, ⟨GraphKind.mgPropertyGraph, 3, 0, ["x"], ["y"]⟩)], [],
       some 0, none, 4⟩ 1 ⟨GraphKind.mgPropertyGraph, 3, 0, ["x"], ["y"]⟩
     "x" rfl rfl).1,
   (spec_c9 ⟨2, [(1, ⟨GraphKind.mgPropertyGraph, 3, 0, ["x"], ["y"]⟩)], [],
       some 0, none, 4⟩
     ⟨2, [(1, ⟨GraphKind.mgPropertyGraph, 3, 0, ["x"], ["y"]⟩)], [],
       some 0, none, 4⟩ 1 ⟨GraphKind.mgPropertyGraph, 3, 0, ["x"], ["y"]⟩
     "y" rfl rfl).2⟩

/-- C1 (counterexample): `uniform_neighbor_sample` wraps nothing.  On the
default graph (lazily created by the lookup), with the subgraph extraction
succeeding and the sampling engine raising a memory error, the handler lets
the NATIVE exception cross the RPC boundary instead of the uniform
`GaasError`.  This refutes the claim that every exception raised during
handling is surfaced as the single uniform error kind. -/
theorem spec_c1_counterexample :
    (uniform_neighbor_sample defaults_graph_id
        (EngineOutcome.ok ⟨GraphKind.plainGraph, 50, 0, [], []⟩)
        (EngineOutcome.raises "MemoryError: std::bad_alloc")
        (EngineOutcome.ok ⟨GraphKind.plainGraph, 51, 0, [], []⟩)
        (runState initState [RegistryOp.get defaults_graph_id])).1
      = Except.error (Exc.native "MemoryError: std::bad_alloc") := rfl

/-- C1 (amended): the dispatcher conversion is not total.
`call_graph_creation_extension` converts every failure to the uniform
`GaasError` PROVIDED the two `eval` calls on the client-supplied argument
reprs succeed (those sit outside the try block); `uniform_neighbor_sample`
performs no conversion at all - on a valid non-property graph, a failure of
the sampling engine surfaces as the native exception. -/
theorem spec_c1_amended (s s' : HandlerState) (fn : String) (c : CallOutcome)
    (gid : Nat) (G : GraphObj) (eo bo : EngineOutcome GraphObj) (msg : String)
    (hget : _get_graph gid s = Except.ok (G, s'))
    (hkind : G.kind ≠ GraphKind.propertyGraph) :
    (∀ e, (call_graph_creation_extension fn EvalOutcome.ok EvalOutcome.ok c s).1
        = Except.error e → ∃ m, e = Exc.gaas m)
    ∧ (uniform_neighbor_sample gid eo (EngineOutcome.raises msg) bo s).1
        = Except.error (Exc.native msg) := by
  constructor
  · intro e he
    by_cases hs : pyStartswith fn "__" = false
    · cases hm : findModule s.graph_creation_extensions fn with
      | none =>
          rw [call_graph_creation_extension] at he
          rw [if_pos hs, hm] at he
          simp only [Except.error.injEq] at he
          exact ⟨_, he.symm⟩
      | some m =>
          rw [call_graph_creation_extension] at he
          rw [if_pos hs, hm] at he
          cases c with
          | raises cmsg =>
              simp only [Except.error.injEq] at he
              exact ⟨_, he.symm⟩
          | ok g => simp at he
    · rw [call_graph_creation_extension, if_neg hs] at he
      simp only [Except.error.injEq] at he
      exact ⟨_, he.symm⟩
  · unfold uniform_neighbor_sample
    rw [hget]
    simp [hkind]

/-- C1 witness: a registry holding a plain extracted graph under id 1; a
sampling-engine failure escapes natively from `uniform_neighbor_sample`, while
`call_graph_creation_extension` with successful evals reports only uniform
errors. -/
theorem spec_c1_amended_witness :
    (∀ e, (call_graph_creation_extension "nope" EvalOutcome.ok EvalOutcome.ok
        (CallOutcome.ok ⟨GraphKind.plainGraph, 9, 0, [], []⟩)
        ⟨2, [(1, ⟨GraphKind.plainGraph, 7, 0, [], []⟩)], [], none, none, 0⟩).1
        = Except.error e → ∃ m, e = Exc.gaas m)
    ∧ (uniform_neighbor_sample 1
        (EngineOutcome.ok ⟨GraphKind.plainGraph, 8, 0, [], []⟩)
        (EngineOutcome.raises "RuntimeError: CUDA error")
        (EngineOutcome.ok ⟨GraphKind.plainGraph, 9, 0, [], []⟩)
        ⟨2, [(1, ⟨GraphKind.plainGraph, 7, 0, [], []⟩)], [], none, none, 0⟩).1
        = Except.error (Exc.native "RuntimeError: CUDA error") :=
  spec_c1_amended
    ⟨2, [(1, ⟨GraphKind.plainGraph, 7, 0, [], []⟩)], [], none, none, 0⟩
    ⟨2, [(1, ⟨GraphKind.plainGraph, 7, 0, [], []⟩)], [], none, none, 0⟩
    "nope" (CallOutcome.ok ⟨GraphKind.plainGraph, 9, 0, [], []⟩) 1
    ⟨GraphKind.plainGraph, 7, 0, [], []⟩
    (EngineOutcome.ok ⟨GraphKind.plainGraph, 8, 0, [], []⟩)
    (EngineOutcome.ok ⟨GraphKind.plainGraph, 9, 0, [], []⟩)
    "RuntimeError: CUDA error" rfl (by decide)
